import Mathlib

/-!
Verification of the Homey MCP server core (shallow embedding).

This file embeds the request dispatcher, tool registry, tool invoker,
argument validator/coercer and response formatter of the Homey MCP server
(`src/lib/utils.ts`: `ValidationHelper`, `MCPHelper`, `HomeyMCPServer`,
`HomeyTools`) as executable Lean definitions and proves properties about
them.

Modelling conventions:
* JavaScript values are the inductive `JSVal` (null, undefined, boolean,
  number, string, other object types tagged by their `typeof` name).
* JavaScript numbers are `JSNum`: NaN, the two infinities, or a finite
  value represented as an exact (unnormalized) fraction `num/den`.  IEEE
  rounding of parsed literals is not modelled; no verified claim depends
  on it.
* Code that can `throw` is embedded in `Except String`, carrying the
  thrown `Error`'s message.
* Calls into the external Homey platform client (`homey-api`) are modelled
  by `HomeyAPIModel` (pure device/zone/flow tables plus per-operation
  results) and every tool returns, next to its result, the list of
  provider operations it performed (`ProviderOp`), so that "no provider
  mutation happens" style properties can be stated.
-/

namespace HomeyMCP

/-- Model of a JavaScript number: NaN, ±Infinity, or a finite value,
represented as the exact fraction `num/den` (not normalized; IEEE-754
rounding is not modelled). -/
inductive JSNum where
  | nan : JSNum
  | posInf : JSNum
  | negInf : JSNum
  | fin (num : Int) (den : Nat) : JSNum
deriving DecidableEq

/-- `isNaN` on the number model. -/
def JSNum.isNaN : JSNum → Bool
  | .nan => true
  | _ => false

/-- JavaScript's `isFinite` on the number model. -/
def jsIsFinite : JSNum → Bool
  | .fin _ _ => true
  | _ => false

/-- Model of a dynamically typed JavaScript value as it appears in a tool
argument bag: `other` covers every remaining runtime type and carries the
string that `typeof` would report for it. -/
inductive JSVal where
  | null : JSVal
  | undef : JSVal
  | bool (b : Bool) : JSVal
  | num (n : JSNum) : JSVal
  | str (s : String) : JSVal
  | other (typeofName : String) : JSVal
deriving DecidableEq

/-- ASCII lower-casing of one character (model of the `toLowerCase`
behaviour on the ASCII range used by zone names). -/
def jsCharToLower (c : Char) : Char :=
  if 'A' ≤ c ∧ c ≤ 'Z' then Char.ofNat (c.toNat + 32) else c

/-- Model of `String.prototype.toLowerCase` (ASCII range). -/
def jsToLower (s : String) : String :=
  ⟨s.data.map jsCharToLower⟩

/-- Whitespace test used by the model of `trim` (ASCII whitespace). -/
def jsIsWhitespace (c : Char) : Bool :=
  c = ' ' ∨ c = '\t' ∨ c = '\n' ∨ c = '\r'

/-- Model of `String.prototype.trim` (ASCII whitespace). -/
def jsTrim (s : String) : String :=
  ⟨((s.data.dropWhile jsIsWhitespace).reverse.dropWhile jsIsWhitespace).reverse⟩

/-- Numeric value of a decimal digit character. -/
def digitVal (c : Char) : Nat := c.toNat - 48

/-- Value of a list of decimal digit characters. -/
def decDigits (cs : List Char) : Nat :=
  cs.foldl (fun a c => a * 10 + digitVal c) 0

/-- Is `c` a hexadecimal digit? -/
def isHexDigit (c : Char) : Bool :=
  c.isDigit ∨ ('a' ≤ c ∧ c ≤ 'f') ∨ ('A' ≤ c ∧ c ≤ 'F')

/-- Numeric value of a hexadecimal digit character. -/
def hexDigitVal (c : Char) : Nat :=
  if c.isDigit then c.toNat - 48
  else if 'a' ≤ c ∧ c ≤ 'f' then c.toNat - 87
  else c.toNat - 55

/-- Value of a list of hexadecimal digit characters. -/
def hexDigits (cs : List Char) : Nat :=
  cs.foldl (fun a c => a * 16 + hexDigitVal c) 0

/-- Is `c` a binary digit? -/
def isBinDigit (c : Char) : Bool := c = '0' ∨ c = '1'

/-- Is `c` an octal digit? -/
def isOctDigit (c : Char) : Bool := '0' ≤ c ∧ c ≤ '7'

/-- Value of a list of binary digit characters. -/
def binDigits (cs : List Char) : Nat :=
  cs.foldl (fun a c => a * 2 + digitVal c) 0

/-- Value of a list of octal digit characters. -/
def octDigits (cs : List Char) : Nat :=
  cs.foldl (fun a c => a * 8 + digitVal c) 0

/-- Scale the fraction `num/den` by `10^e` (used for exponent parts). -/
def applyExp (num : Int) (den : Nat) (e : Int) : JSNum :=
  if 0 ≤ e then .fin (num * (10 ^ e.toNat : Nat)) den
  else .fin num (den * 10 ^ (-e).toNat)

/-- Parse the exponent part of a decimal literal (after `e`/`E`): an
optional sign followed by at least one digit. -/
def parseExpPart : List Char → Option Int
  | [] => none
  | '+' :: rest =>
      if rest ≠ [] ∧ rest.all Char.isDigit then some (decDigits rest) else none
  | '-' :: rest =>
      if rest ≠ [] ∧ rest.all Char.isDigit then some (-(decDigits rest : Int)) else none
  | cs =>
      if cs.all Char.isDigit then some (decDigits cs) else none

/-- Parse an unsigned JavaScript decimal literal
(`Digits [. Digits] [ExponentPart]` or `. Digits [ExponentPart]`),
fully consuming the input; the result is an exact fraction. -/
def parseUnsignedDec (cs : List Char) : Option JSNum :=
  let ip := cs.takeWhile Char.isDigit
  let r1 := cs.dropWhile Char.isDigit
  match r1 with
  | [] => if ip = [] then none else some (.fin (decDigits ip) 1)
  | '.' :: r2 =>
      let fp := r2.takeWhile Char.isDigit
      let r3 := r2.dropWhile Char.isDigit
      if ip = [] ∧ fp = [] then none
      else
        let num : Int := decDigits ip * 10 ^ fp.length + decDigits fp
        let den : Nat := 10 ^ fp.length
        match r3 with
        | [] => some (.fin num den)
        | c :: r4 =>
            if c = 'e' ∨ c = 'E' then (parseExpPart r4).map (applyExp num den) else none
  | c :: r2 =>
      if (c = 'e' ∨ c = 'E') ∧ ip ≠ [] then
        (parseExpPart r2).map (applyExp (decDigits ip) 1)
      else none

/-- Parse an optionally signed decimal literal. -/
def parseSignedDec (cs : List Char) : Option JSNum :=
  match cs with
  | '+' :: rest => parseUnsignedDec rest
  | '-' :: rest =>
      (parseUnsignedDec rest).map fun n =>
        match n with
        | .fin num den => .fin (-num) den
        | m => m
  | _ => parseUnsignedDec cs

/-- Parse a radix-prefixed integer literal (`0x`, `0o`, `0b`); returns
`some .nan` when the prefix is present but the digits are malformed, and
`none` when no radix prefix is present. -/
def parseRadix (cs : List Char) : Option JSNum :=
  match cs with
  | '0' :: c :: rest =>
      if c = 'x' ∨ c = 'X' then
        some (if rest ≠ [] ∧ rest.all isHexDigit then .fin (hexDigits rest) 1 else .nan)
      else if c = 'o' ∨ c = 'O' then
        some (if rest ≠ [] ∧ rest.all isOctDigit then .fin (octDigits rest) 1 else .nan)
      else if c = 'b' ∨ c = 'B' then
        some (if rest ≠ [] ∧ rest.all isBinDigit then .fin (binDigits rest) 1 else .nan)
      else none
  | _ => none

/-- Model of JavaScript's `Number(string)` conversion applied to an
already-trimmed string: the empty string is `0`, `Infinity` forms are
infinite, radix-prefixed and decimal literals give their value and
everything else is `NaN`. -/
def jsStrToNum (s : String) : JSNum :=
  let cs := s.data
  if cs = [] then .fin 0 1
  else if cs = "Infinity".data ∨ cs = "+Infinity".data then .posInf
  else if cs = "-Infinity".data then .negInf
  else
    match parseRadix cs with
    | some n => n
    | none =>
        match parseSignedDec cs with
        | some n => n
        | none => .nan

/-- Rendering of a number by string interpolation (`${n}`); the rendering
of non-integral finite values is abstracted (no claim depends on it). -/
def JSNum.render : JSNum → String
  | .nan => "NaN"
  | .posInf => "Infinity"
  | .negInf => "-Infinity"
  | .fin num den => if den = 1 then toString num else toString num ++ "/" ++ toString den

/-- Rendering of a value by string interpolation (`${v}`); the rendering
of non-primitive values is abstracted (no claim depends on it). -/
def jsToString : JSVal → String
  | .null => "null"
  | .undef => "undefined"
  | .bool true => "true"
  | .bool false => "false"
  | .num n => n.render
  | .str s => s
  | .other _ => "[object Object]"

/-- Model of `JSON.stringify` as interpolated into a template string
(string escaping inside quoted strings is not modelled; no claim uses a
string needing escapes). -/
def jsonStringify : JSVal → String
  | .str s => "\"" ++ s ++ "\""
  | .bool true => "true"
  | .bool false => "false"
  | .num (.fin num den) => JSNum.render (.fin num den)
  | .num _ => "null"
  | .null => "null"
  | .undef => "undefined"
  | .other _ => "\x7b\x7d"

/-- JavaScript truthiness. -/
def jsTruthy : JSVal → Bool
  | .null => false
  | .undef => false
  | .bool b => b
  | .num .nan => false
  | .num (.fin num _) => !(num = 0)
  | .num _ => true
  | .str s => !(s = "")
  | .other _ => true

/-- `s || d` for strings: `d` when `s` is falsy (empty), else `s`. -/
def jsOr (s d : String) : String := if s = "" then d else s

/-- `s || d` where `s` may also be undefined/null (`none`). -/
def jsOrOpt (s : Option String) (d : String) : String :=
  match s with
  | none => d
  | some v => jsOr v d

namespace ValidationHelper

/-- `ValidationHelper.validateDeviceId`: the device id must be a non-empty
string, otherwise the call throws. -/
def validateDeviceId : JSVal → Except String String
  | .str s => if s = "" then .error "Device ID must be a non-empty string" else .ok s
  | _ => .error "Device ID must be a non-empty string"

/-- `ValidationHelper.validateCapability`: the capability must be a
non-empty string, otherwise the call throws. -/
def validateCapability : JSVal → Except String String
  | .str s => if s = "" then .error "Capability must be a non-empty string" else .ok s
  | _ => .error "Capability must be a non-empty string"

/-- `ValidationHelper.validateFlowId`: the flow id must be a non-empty
string, otherwise the call throws. -/
def validateFlowId : JSVal → Except String String
  | .str s => if s = "" then .error "Flow ID must be a non-empty string" else .ok s
  | _ => .error "Flow ID must be a non-empty string"

/-- `ValidationHelper.validateCapabilityValue`: coerces a raw tool-call
value to a boolean, number or string, or throws a validation error.
Direct transcription of the source, including its order of checks; the
source's `Number(trimmed)` is `jsStrToNum trimmed` since `trimmed` is
already trimmed. -/
def validateCapabilityValue : JSVal → Except String JSVal
  | .null => .error "Capability value cannot be null or undefined"
  | .undef => .error "Capability value cannot be null or undefined"
  | .bool b => .ok (.bool b)
  | .num n =>
      if !(jsIsFinite n) then .error "Capability value cannot be NaN or Infinity"
      else .ok (.num n)
  | .str s =>
      if s = "" then .error "Capability value cannot be an empty string"
      else if s = "true" then .ok (.bool true)
      else if s = "false" then .ok (.bool false)
      else
        let trimmed := jsTrim s
        if trimmed ≠ "" ∧ !(jsStrToNum trimmed).isNaN then .ok (.num (jsStrToNum trimmed))
        else .ok (.str s)
  | .other t =>
      .error ("Invalid capability value type: expected string, number, or boolean, got " ++ t)

/-- `ValidationHelper.sanitizeZoneName`: `none` for null/undefined (valid
"no filter"), trimmed string for text, a thrown error otherwise.  (In the
source this helper is defined but never invoked by any tool path.) -/
def sanitizeZoneName : JSVal → Except String (Option String)
  | .null => .ok none
  | .undef => .ok none
  | .str s => .ok (some (jsTrim s))
  | _ => .error "Zone name must be a string"

end ValidationHelper

/-- Capability value coercion transcribed from the *specification's*
rules 1–8 (refinement counterpart of
`ValidationHelper.validateCapabilityValue`): `none` is a validation
failure, `some v` the coerced value.  "Text that parses fully as a
number" is read as: the text has a non-whitespace core whose `Number`
conversion is not `NaN`. -/
def coercionSpec : JSVal → Option JSVal
  | .null => none
  | .undef => none
  | .bool b => some (.bool b)
  | .num n => if jsIsFinite n then some (.num n) else none
  | .str s =>
      if s = "" then none
      else if s = "true" then some (.bool true)
      else if s = "false" then some (.bool false)
      else if jsTrim s ≠ "" ∧ !(jsStrToNum (jsTrim s)).isNaN then some (.num (jsStrToNum (jsTrim s)))
      else some (.str s)
  | .other _ => none

/-- Concatenation of a list of strings (the sequential `output +=` of the
formatters). -/
def strJoin : List String → String
  | [] => ""
  | s :: rest => s ++ strJoin rest

/-- `Array.prototype.join(sep)`. -/
def joinWith (sep : String) : List String → String
  | [] => ""
  | [s] => s
  | s :: t :: rest => s ++ sep ++ joinWith sep (t :: rest)

/-- `String.prototype.split` on a single-character separator, on
character lists. -/
def splitCh (c : Char) : List Char → List (List Char)
  | [] => [[]]
  | x :: xs =>
      let r := splitCh c xs
      if x = c then [] :: r
      else
        match r with
        | [] => [[x]]
        | y :: ys => (x :: y) :: ys

/-- `String.prototype.split(":")`. -/
def splitColon (s : String) : List String :=
  (splitCh ':' s.data).map fun cs => ⟨cs⟩

/-- Projection of one device as rendered by `formatDeviceList`. -/
structure DeviceInfo where
  id : String
  name : String
  zone : String
  «class» : String
  available : Bool
  capabilities : List String
  capabilityValues : List (String × JSVal)
  driver : String
  app : String
deriving DecidableEq

/-- Projection of one zone as rendered by `formatZoneList`. -/
structure ZoneEntry where
  id : String
  name : String
deriving DecidableEq

/-- Projection of one flow as rendered by `formatFlowList`. -/
structure FlowInfo where
  id : String
  name : String
  enabled : Bool
  folder : Option String
  triggerable : Bool
deriving DecidableEq

namespace MCPHelper

/-- One numbered block of `MCPHelper.formatDeviceList` (`index` is
0-based as supplied by `forEach`). -/
def formatDeviceEntry (index : Nat) (device : DeviceInfo) : String :=
  toString (index + 1) ++ ". " ++ jsOr device.name "Unknown Device" ++ "\n" ++
  "   ID: " ++ jsOr device.id "N/A" ++ "\n" ++
  "   Zone: " ++ jsOr device.zone "N/A" ++ "\n" ++
  "   Class: " ++ jsOr device.«class» "N/A" ++ "\n" ++
  "   Available: " ++ (if device.available then "Yes" else "No") ++ "\n" ++
  (if device.capabilities ≠ [] then
    "   Capabilities: " ++ joinWith ", " device.capabilities ++ "\n"
  else "") ++
  "\n"

/-- `MCPHelper.formatDeviceList`. -/
def formatDeviceList (devices : List DeviceInfo) : String :=
  if devices = [] then "No devices found."
  else
    "Found " ++ toString devices.length ++ " device(s):\n\n" ++
    strJoin (devices.enum.map fun p => formatDeviceEntry p.1 p.2)

/-- One numbered block of `MCPHelper.formatZoneList`. -/
def formatZoneEntry (index : Nat) (zone : ZoneEntry) : String :=
  toString (index + 1) ++ ". " ++ jsOr zone.name "Unknown Zone" ++ "\n" ++
  "   ID: " ++ jsOr zone.id "N/A" ++ "\n\n"

/-- `MCPHelper.formatZoneList`. -/
def formatZoneList (zones : List ZoneEntry) : String :=
  if zones = [] then "No zones found."
  else
    "Found " ++ toString zones.length ++ " zone(s):\n\n" ++
    strJoin (zones.enum.map fun p => formatZoneEntry p.1 p.2)

/-- One numbered block of `MCPHelper.formatFlowList`. -/
def formatFlowEntry (index : Nat) (flow : FlowInfo) : String :=
  toString (index + 1) ++ ". " ++ jsOr flow.name "Unknown Flow" ++ "\n" ++
  "   ID: " ++ jsOr flow.id "N/A" ++ "\n" ++
  "   Enabled: " ++ (if flow.enabled then "Yes" else "No") ++ "\n\n"

/-- `MCPHelper.formatFlowList`. -/
def formatFlowList (flows : List FlowInfo) : String :=
  if flows = [] then "No flows found."
  else
    "Found " ++ toString flows.length ++ " flow(s):\n\n" ++
    strJoin (flows.enum.map fun p => formatFlowEntry p.1 p.2)

end MCPHelper

/-- Zone record as delivered by `zones.getZones()` (only the `name` field
is consumed; a missing/empty name is the falsy case of `zone.name || id`). -/
structure Zone where
  name : String
deriving DecidableEq

/-- Device record as delivered by the provider.  `zone` holds the zone id
reference (the provider delivers it either as a string id or as an object
whose `id` field is that string; both are modelled by the id).
`capabilitiesObj` entries carry `some v` when the capability info object
has a `value` property and `none` otherwise. -/
structure Device where
  name : String
  zone : Option String
  «class» : String
  available : Option Bool
  capabilities : List String
  capabilitiesObj : Option (List (String × Option JSVal))
  driverId : Option String
  managerUri : Option String

/-- Trigger part of a flow record. -/
structure FlowTrigger where
  id : Option String
  uri : Option String

/-- A condition or action card of a flow record. -/
structure FlowCard where
  id : Option String

/-- Flow record as delivered by `flow.getFlows()` / `flow.getFlow()`. -/
structure Flow where
  name : String
  enabled : Option Bool
  folder : Option String
  triggerable : Option Bool
  trigger : Option FlowTrigger
  conditions : Option (List FlowCard)
  actions : Option (List FlowCard)

/-- Model of the external Homey platform client: pure data tables keyed in
`Object.entries` order, plus the outcome of the two per-capability
operations.  `getDevice`/`getFlow` on an unknown id resolve to
`undefined` (`none`), matching the `if (!device)` / `if (!flowData)`
checks in the source. -/
structure HomeyAPIModel where
  devices : List (String × Device)
  zones : List (String × Zone)
  flows : List (String × Flow)
  capRead : String → String → Except String JSVal
  setCapResult : String → String → JSVal → Option String

/-- A provider operation performed by a tool handler.  The only mutation
in the consumed interface is `setCapabilityValue`. -/
inductive ProviderOp where
  | getDevices : ProviderOp
  | getZones : ProviderOp
  | getFlows : ProviderOp
  | getDevice (id : String) : ProviderOp
  | getFlow (id : String) : ProviderOp
  | getCapabilityValue (deviceId capabilityId : String) : ProviderOp
  | setCapabilityValue (deviceId capabilityId : String) (value : JSVal) : ProviderOp
deriving DecidableEq

/-- Is this provider operation a mutation? -/
def ProviderOp.isMutation : ProviderOp → Bool
  | .setCapabilityValue _ _ _ => true
  | _ => false

/-- Three-way lexicographic comparison of character lists (-1/0/1). -/
def lexCmpCh : List Char → List Char → Int
  | [], [] => 0
  | [], _ :: _ => -1
  | _ :: _, [] => 1
  | a :: as, b :: bs => if a < b then -1 else if b < a then 1 else lexCmpCh as bs

/-- Case pattern of a string: for every character, `'B'` when it is an
ASCII upper-case letter and `'A'` otherwise (lower case sorts first at
the tie-breaking level of the default collator). -/
def caseKey (s : String) : List Char :=
  s.data.map fun c => if 'A' ≤ c ∧ c ≤ 'Z' then 'B' else 'A'

/-- Model of `String.prototype.localeCompare` with the default locale,
restricted to the ASCII range: primary strength is case-insensitive
lexicographic comparison, ties are broken by case with lower case first. -/
def jsLocaleCompare (a b : String) : Int :=
  let p := lexCmpCh (jsToLower a).data (jsToLower b).data
  if p ≠ 0 then p else lexCmpCh (caseKey a) (caseKey b)

/-- Keyed insertion into a JavaScript object modelled as an association
list in insertion order: an existing key is overwritten in place, a new
key is appended. -/
def recordSet (m : List (String × JSVal)) (k : String) (v : JSVal) :
    List (String × JSVal) :=
  if m.any fun p => p.1 = k then m.map fun p => if p.1 = k then (k, v) else p
  else m ++ [(k, v)]

namespace HomeyTools

/-- The error thrown by `HomeyTools.ensureInitialized` when the provider
connection was never established. -/
def notInitializedMsg : String := "HomeyAPI not initialized. Call initialize() first."

/-- `HomeyTools.formatErrorMessage`. -/
def formatErrorMessage (context msg : String) : String :=
  "Failed to " ++ context ++ ": " ++ msg

/-- `HomeyTools.getZoneName`: resolve a device's zone reference against
the zone table, falling back to `"Unknown"`. -/
def getZoneName (deviceZone : Option String) (allZones : List (String × Zone)) : String :=
  match deviceZone with
  | none => "Unknown"
  | some zoneId =>
      if zoneId = "" then "Unknown"
      else
        match allZones.lookup zoneId with
        | some z => jsOr z.name "Unknown"
        | none => "Unknown"

/-- `HomeyTools.extractCapabilityValues`: keep the entries of
`capabilitiesObj` that carry a `value` property. -/
def extractCapabilityValues (capabilitiesObj : Option (List (String × Option JSVal))) :
    List (String × JSVal) :=
  match capabilitiesObj with
  | none => []
  | some entries => entries.filterMap fun p => p.2.map fun v => (p.1, v)

/-- The `DeviceInfo` projection built per device inside
`HomeyTools.listDevices`. -/
def mkDeviceInfo (deviceId : String) (d : Device) (zoneName : String) : DeviceInfo :=
  { id := deviceId
    name := jsOr d.name "Unknown Device"
    zone := zoneName
    «class» := jsOr d.«class» "unknown"
    available := d.available.getD true
    capabilities := d.capabilities
    capabilityValues := extractCapabilityValues d.capabilitiesObj
    driver := jsOrOpt d.driverId "unknown"
    app := match d.driverId with
           | none => "unknown"
           | some s => jsOrOpt ((splitColon s).get? 1) "unknown" }

/-- `HomeyTools.listDevices`.  The zone filter is used exactly as
received: a falsy filter (undefined, null, empty string, …) disables
filtering, and a truthy non-string filter throws
(`zone.toLowerCase is not a function`) as soon as one device is
processed. -/
def listDevices (homeyApi : Option HomeyAPIModel) (zone : JSVal) :
    Except String String × List ProviderOp :=
  match homeyApi with
  | none => (.error (formatErrorMessage "list devices" notInitializedMsg), [])
  | some api =>
      let trace := [ProviderOp.getDevices, ProviderOp.getZones]
      match zone with
      | .str z =>
          let deviceList := api.devices.filterMap fun p =>
            let zoneName := getZoneName p.2.zone api.zones
            if z ≠ "" ∧ jsToLower zoneName ≠ jsToLower z then none
            else some (mkDeviceInfo p.1 p.2 zoneName)
          (.ok (MCPHelper.formatDeviceList deviceList), trace)
      | v =>
          if jsTruthy v && !api.devices.isEmpty then
            (.error (formatErrorMessage "list devices" "zone.toLowerCase is not a function"),
             trace)
          else
            (.ok (MCPHelper.formatDeviceList (api.devices.map fun p =>
               mkDeviceInfo p.1 p.2 (getZoneName p.2.zone api.zones))), trace)

/-- `HomeyTools.controlDevice`.  Note that the raw `value` is forwarded to
`setCapabilityValue` exactly as received — the source performs no value
coercion on this path. -/
def controlDevice (homeyApi : Option HomeyAPIModel) (deviceId capability value : JSVal) :
    Except String String × List ProviderOp :=
  match ValidationHelper.validateDeviceId deviceId with
  | .error e => (.error (formatErrorMessage "control device" e), [])
  | .ok devId =>
  match ValidationHelper.validateCapability capability with
  | .error e => (.error (formatErrorMessage "control device" e), [])
  | .ok cap =>
  match homeyApi with
  | none => (.error (formatErrorMessage "control device" notInitializedMsg), [])
  | some api =>
      match api.setCapResult devId cap value with
      | some err =>
          (.error (formatErrorMessage "control device" err),
           [ProviderOp.setCapabilityValue devId cap value])
      | none =>
          let trace := [ProviderOp.setCapabilityValue devId cap value,
                        ProviderOp.getDevice devId]
          match api.devices.lookup devId with
          | none =>
              (.error (formatErrorMessage "control device"
                 "Cannot read properties of undefined (reading \x27name\x27)"), trace)
          | some device =>
              let deviceName := jsOr device.name devId
              (.ok ("Successfully set " ++ cap ++ " to " ++ jsToString value ++
                    " for device \"" ++ deviceName ++ "\" (" ++ devId ++ ")"), trace)

/-- The per-capability value resolved inside `HomeyTools.getDeviceInfo`:
the provider's value on success, the `"Error reading value"` placeholder
when the individual read fails. -/
def readCapValue (api : HomeyAPIModel) (devId c : String) : JSVal :=
  match api.capRead devId c with
  | .ok v => v
  | .error _ => JSVal.str "Error reading value"

/-- The fixed header lines of the `get_device_info` rendering. -/
def deviceInfoHeader (devId : String) (device : Device)
    (zoneName availableStatus : String) : List String :=
  ["Device Information for: " ++ jsOr device.name "Unknown Device",
   "ID: " ++ devId,
   "Zone: " ++ zoneName,
   "Class: " ++ jsOr device.«class» "unknown",
   "Available: " ++ availableStatus,
   "Driver: " ++ jsOrOpt device.driverId "unknown",
   "App: " ++ (match device.managerUri with
               | none => "unknown"
               | some u => jsOrOpt ((splitColon u).get? 0) "unknown"),
   "",
   "Capabilities:"]

/-- `HomeyTools.getDeviceInfo`: each declared capability is read
individually; a failed read degrades to the `"Error reading value"`
placeholder for that capability only. -/
def getDeviceInfo (homeyApi : Option HomeyAPIModel) (deviceId : JSVal) :
    Except String String × List ProviderOp :=
  match ValidationHelper.validateDeviceId deviceId with
  | .error e => (.error (formatErrorMessage "get device info" e), [])
  | .ok devId =>
  match homeyApi with
  | none => (.error (formatErrorMessage "get device info" notInitializedMsg), [])
  | some api =>
      match api.devices.lookup devId with
      | none =>
          (.error (formatErrorMessage "get device info" ("Device not found: " ++ devId)),
           [ProviderOp.getDevice devId])
      | some device =>
          let zoneName := jsOrOpt device.zone "Unknown"
          let capabilities := device.capabilities
          let capabilityValues :=
            capabilities.foldl (fun m c => recordSet m c (readCapValue api devId c)) []
          let availableStatus :=
            match device.available with
            | none => "Unknown"
            | some true => "Yes"
            | some false => "No"
          let lines :=
            deviceInfoHeader devId device zoneName availableStatus ++
            capabilityValues.map fun p => "  " ++ p.1 ++ ": " ++ jsonStringify p.2
          (.ok (joinWith "\n" lines),
           ProviderOp.getDevice devId ::
             capabilities.map fun c => ProviderOp.getCapabilityValue devId c)

/-- The sorted zone array built inside `HomeyTools.listZones`
(`.sort((a, b) => a.name.localeCompare(b.name))`).  `Array.prototype.sort`
is modelled by a sort agreeing with the comparator; the relative order of
comparator ties (identical names) is not prescribed by the model. -/
def zoneArrayOf (api : HomeyAPIModel) : List ZoneEntry :=
  List.insertionSort (fun a b => jsLocaleCompare a.name b.name ≤ 0)
    (api.zones.map fun p => { id := p.1, name := jsOr p.2.name p.1 })

/-- `HomeyTools.listZones`. -/
def listZones (homeyApi : Option HomeyAPIModel) :
    Except String String × List ProviderOp :=
  match homeyApi with
  | none => (.error (formatErrorMessage "list zones" notInitializedMsg), [])
  | some api => (.ok (MCPHelper.formatZoneList (zoneArrayOf api)), [ProviderOp.getZones])

/-- The `FlowInfo` projection built per flow inside `HomeyTools.listFlows`. -/
def mkFlowInfo (flowId : String) (f : Flow) : FlowInfo :=
  { id := flowId
    name := jsOr f.name "Unknown Flow"
    enabled := f.enabled.getD false
    folder := match f.folder with
              | some s => if s = "" then none else some s
              | none => none
    triggerable := f.triggerable.getD false }

/-- `HomeyTools.listFlows`; the `enabledOnly` parameter defaults to
`false` when the argument is `undefined`. -/
def listFlows (homeyApi : Option HomeyAPIModel) (enabledOnly : JSVal) :
    Except String String × List ProviderOp :=
  match homeyApi with
  | none => (.error (formatErrorMessage "list flows" notInitializedMsg), [])
  | some api =>
      let eo := match enabledOnly with
                | .undef => JSVal.bool false
                | v => v
      let flowList := (api.flows.map fun p => mkFlowInfo p.1 p.2).filter
        fun f => !(jsTruthy eo) || f.enabled
      (.ok (MCPHelper.formatFlowList flowList), [ProviderOp.getFlows])

/-- `HomeyTools.triggerFlow`: resolves the flow (a read), then returns its
metadata together with the fixed not-operational notice; no provider
mutation exists on this path.  On any failure the catch block wraps the
message with the `"get flow information"` context. -/
def triggerFlow (homeyApi : Option HomeyAPIModel) (flowId : JSVal) :
    Except String String × List ProviderOp :=
  match ValidationHelper.validateFlowId flowId with
  | .error e => (.error (formatErrorMessage "get flow information" e), [])
  | .ok fid =>
  match homeyApi with
  | none => (.error (formatErrorMessage "get flow information" notInitializedMsg), [])
  | some api =>
      match api.flows.lookup fid with
      | none =>
          (.error (formatErrorMessage "get flow information" ("Flow not found: " ++ fid)),
           [ProviderOp.getFlow fid])
      | some flowData =>
          let flowName := jsOr flowData.name fid
          let text :=
            "⚠️ Flow triggering is currently not operational due to Homey API limitations.\n\nFlow Details:\n" ++
            ("- Name: " ++ flowName) ++
            ("\n" ++ ("- ID: " ++ fid)) ++
            ("\n" ++ ("- Enabled: " ++ (if flowData.enabled.getD false then "Yes" else "No"))) ++
            ("\n" ++ ("- Triggerable: " ++ (if flowData.triggerable.getD false then "Yes" else "No"))) ++
            "\n\nPlease use the Homey app or web interface to manually trigger this flow."
          (.ok text, [ProviderOp.getFlow fid])

/-- `HomeyTools.getFlowInfo`. -/
def getFlowInfo (homeyApi : Option HomeyAPIModel) (flowId : JSVal) :
    Except String String × List ProviderOp :=
  match ValidationHelper.validateFlowId flowId with
  | .error e => (.error (formatErrorMessage "get flow info" e), [])
  | .ok fid =>
  match homeyApi with
  | none => (.error (formatErrorMessage "get flow info" notInitializedMsg), [])
  | some api =>
      match api.flows.lookup fid with
      | none =>
          (.error (formatErrorMessage "get flow info" ("Flow not found: " ++ fid)),
           [ProviderOp.getFlow fid])
      | some flowData =>
          let base :=
            ["Flow Information for: " ++ jsOr flowData.name "Unknown Flow",
             "ID: " ++ fid,
             "Enabled: " ++ (if flowData.enabled.getD false then "Yes" else "No"),
             "Triggerable: " ++ (if flowData.triggerable.getD false then "Yes" else "No"),
             "Folder: " ++ jsOrOpt flowData.folder "None"]
          let l2 := base ++
            (match flowData.trigger with
             | none => []
             | some tr =>
                 ["", "Trigger:", "  ID: " ++ jsOrOpt tr.id "N/A"] ++
                 (match tr.uri with
                  | some u => if u ≠ "" then ["  URI: " ++ u] else []
                  | none => []))
          let l3 := l2 ++
            (match flowData.conditions with
             | some cs =>
                 if cs.length > 0 then
                   ["", "Conditions (" ++ toString cs.length ++ "):"] ++
                   cs.enum.map fun p => "  " ++ toString (p.1 + 1) ++ ". " ++ jsOrOpt p.2.id "Unknown"
                 else []
             | none => [])
          let l4 := l3 ++
            (match flowData.actions with
             | some as_ =>
                 if as_.length > 0 then
                   ["", "Actions (" ++ toString as_.length ++ "):"] ++
                   as_.enum.map fun p => "  " ++ toString (p.1 + 1) ++ ". " ++ jsOrOpt p.2.id "Unknown"
                 else []
             | none => [])
          (.ok (joinWith "\n" l4), [ProviderOp.getFlow fid])

end HomeyTools

/-- One entry of the static tool registry: name, description, declared
property names and the declared required parameters. -/
structure ToolDef where
  name : String
  description : String
  properties : List String
  required : List String
deriving DecidableEq

namespace HomeyMCPServer

/-- `HomeyMCPServer.getToolDefinitions`: the fixed catalog of seven tools. -/
def getToolDefinitions : List ToolDef :=
  [{ name := "list_devices"
     description := "List all Homey devices with their current state"
     properties := ["zone"], required := [] },
   { name := "control_device"
     description := "Control a Homey device capability"
     properties := ["device_id", "capability", "value"]
     required := ["device_id", "capability", "value"] },
   { name := "get_device_info"
     description := "Get detailed information about a specific device"
     properties := ["device_id"], required := ["device_id"] },
   { name := "list_zones"
     description := "List all Homey zones"
     properties := [], required := [] },
   { name := "list_flows"
     description := "List automation flows"
     properties := ["enabled_only"], required := [] },
   { name := "trigger_flow"
     description := "Trigger an automation flow"
     properties := ["flow_id"], required := ["flow_id"] },
   { name := "get_flow_info"
     description := "Get detailed information about a flow"
     properties := ["flow_id"], required := ["flow_id"] }]

end HomeyMCPServer

/-- The `result` payload of a successful JSON-RPC response. -/
inductive MCPResult where
  | initResult (protocolVersion serverName serverVersion : String) : MCPResult
  | toolsList (tools : List ToolDef) : MCPResult
  | content (text : String) : MCPResult
deriving DecidableEq

/-- The `error` member of a JSON-RPC error response. -/
structure ErrorObj where
  code : Int
  message : String
  data : Option String
deriving DecidableEq

/-- A JSON-RPC response: exactly one of `result` / `error`, always
carrying an `id`. -/
inductive MCPResponse where
  | success (id : JSVal) (result : MCPResult) : MCPResponse
  | error (id : JSVal) (e : ErrorObj) : MCPResponse
deriving DecidableEq

/-- The `id` echoed by a response of either shape. -/
def MCPResponse.respId : MCPResponse → JSVal
  | .success i _ => i
  | .error i _ => i

/-- The `params` of a `tools/call` request: the raw `name` value and the
optional `arguments` object (an association list in property order). -/
structure ToolCallParams where
  name : JSVal
  arguments : Option (List (String × JSVal))

/-- An inbound JSON-RPC request.  `id` is an arbitrary caller-chosen
value (`.undef` when absent, `.null` when null). -/
structure MCPRequest where
  id : JSVal
  method : String
  params : Option ToolCallParams

/-- Argument lookup in the argument bag: a missing property reads as
`undefined`. -/
def getArg (args : List (String × JSVal)) (k : String) : JSVal :=
  (args.lookup k).getD .undef

namespace HomeyMCPServer

/-- `HomeyMCPServer.executeTool`: dispatch by exact tool name; an unknown
name throws `Unknown tool: <name>` before any provider access. -/
def executeTool (homeyApi : Option HomeyAPIModel) (name : JSVal)
    (args : List (String × JSVal)) : Except String String × List ProviderOp :=
  match name with
  | .str s =>
      if s = "list_devices" then HomeyTools.listDevices homeyApi (getArg args "zone")
      else if s = "control_device" then
        HomeyTools.controlDevice homeyApi (getArg args "device_id")
          (getArg args "capability") (getArg args "value")
      else if s = "get_device_info" then
        HomeyTools.getDeviceInfo homeyApi (getArg args "device_id")
      else if s = "list_zones" then HomeyTools.listZones homeyApi
      else if s = "list_flows" then HomeyTools.listFlows homeyApi (getArg args "enabled_only")
      else if s = "trigger_flow" then HomeyTools.triggerFlow homeyApi (getArg args "flow_id")
      else if s = "get_flow_info" then HomeyTools.getFlowInfo homeyApi (getArg args "flow_id")
      else (.error ("Unknown tool: " ++ s), [])
  | v => (.error ("Unknown tool: " ++ jsToString v), [])

/-- `HomeyMCPServer.handleToolCall`: extract `name`/`arguments` from the
params (defaulting to `undefined`/`{}`), run the tool, and wrap the
outcome: success as a text content block, failure as a `-32603` error
whose `data` carries the thrown message. -/
def handleToolCall (homeyApi : Option HomeyAPIModel) (req : MCPRequest) :
    MCPResponse × List ProviderOp :=
  let name := match req.params with
              | some p => p.name
              | none => .undef
  let toolArgs := match req.params with
                  | some p => p.arguments.getD []
                  | none => []
  match executeTool homeyApi name toolArgs with
  | (.ok result, tr) => (.success req.id (.content result), tr)
  | (.error e, tr) =>
      (.error req.id { code := -32603, message := "Tool failed: " ++ jsToString name,
                       data := some e }, tr)

/-- `HomeyMCPServer.handleInitialize`. -/
def handleInitialize (req : MCPRequest) : MCPResponse :=
  .success req.id (.initResult "2024-11-05" "homey-mcp-server" "1.0.0")

/-- `HomeyMCPServer.handleToolsList`. -/
def handleToolsList (req : MCPRequest) : MCPResponse :=
  .success req.id (.toolsList getToolDefinitions)

/-- `HomeyMCPServer.handleMCPRequest`: method routing. -/
def handleMCPRequest (homeyApi : Option HomeyAPIModel) (req : MCPRequest) :
    MCPResponse × List ProviderOp :=
  match req.method with
  | "initialize" => (handleInitialize req, [])
  | "tools/list" => (handleToolsList req, [])
  | "tools/call" => handleToolCall homeyApi req
  | m => (.error req.id { code := -32601, message := "Method not found: " ++ m, data := none }, [])

/-- The top-level catch block of `handleMCPRequest`: any exception thrown
during dispatch is converted into a `-32603` internal error echoing the
request id. -/
def topLevelCatch (req : MCPRequest) (err : String) : MCPResponse :=
  .error req.id { code := -32603, message := "Internal error", data := some err }

end HomeyMCPServer

/-- The state held by a `HomeyTools` instance: the provider handle, which
stays `none` when `HomeyTools.initialize` failed. -/
structure HomeyToolsState where
  homeyApi : Option HomeyAPIModel

/-- The process-wide static state of `HomeyMCPServer`: the published
singleton instance. -/
structure MCPGlobal where
  inst : Option HomeyToolsState

namespace HomeyMCPServer

/-- `HomeyMCPServer.initialize`: if an instance exists it is returned
unchanged; otherwise the instance is constructed and *published before*
`HomeyTools.initialize` runs, and a connection failure (the `connect`
outcome models `HomeyAPI.createAppAPI`) is caught and logged — the
instance stays published with `homeyApi = none`.  (Named `initServer`
here because the source's name `initialize` is a Lean keyword.) -/
def initServer (g : MCPGlobal) (connect : Except String HomeyAPIModel) :
    MCPGlobal × HomeyToolsState :=
  match g.inst with
  | some s => (g, s)
  | none =>
      let s : HomeyToolsState :=
        { homeyApi := match connect with
                      | .ok api => some api
                      | .error _ => none }
      ({ inst := some s }, s)

end HomeyMCPServer

deriving instance DecidableEq for Except

/-- `s` contains `sub` as a contiguous substring (stated on the
underlying character lists). -/
def strContains (s sub : String) : Prop :=
  ∃ pre post : List Char, s.data = pre ++ (sub.data ++ post)

/-- Case-insensitive lexicographic comparison (the ordering the zone-list
claim speaks about): `a` is at most `b` when the lower-cased form of `a`
is lexicographically at most that of `b`. -/
def ciLe (a b : String) : Prop :=
  lexCmpCh (jsToLower a).data (jsToLower b).data ≤ 0

/-- Fixture: a lamp device placed in zone `z1`. -/
def demoLamp : Device :=
  { name := "Lamp", zone := some "z1", «class» := "light", available := some true
    capabilities := ["onoff"], capabilitiesObj := some [("onoff", some (.bool true))]
    driverId := some "homey:app", managerUri := some "homey:manager" }

/-- Fixture: a sensor device with three declared capabilities, placed in
zone `z2`. -/
def demoSensor : Device :=
  { name := "Sensor", zone := some "z2", «class» := "sensor", available := some true
    capabilities := ["onoff", "dim", "measure_temperature"], capabilitiesObj := none
    driverId := none, managerUri := none }

/-- Fixture: a disabled, non-triggerable flow. -/
def demoFlow : Flow :=
  { name := "Morning", enabled := some false, folder := none, triggerable := some false
    trigger := none, conditions := none, actions := none }

/-- Fixture: a provider with two devices, the three example zones of the
specification, one flow, and a capability read that fails exactly for the
`dim` capability of device `d8`. -/
def demoApi : HomeyAPIModel :=
  { devices := [("d1", demoLamp), ("d8", demoSensor)]
    zones := [("z1", ⟨"Kitchen"⟩), ("z2", ⟨"attic"⟩), ("z3", ⟨"Bedroom"⟩)]
    flows := [("f1", demoFlow)]
    capRead := fun d c => if d = "d8" ∧ c = "dim" then .error "read failed" else .ok (.bool true)
    setCapResult := fun _ _ _ => none }

/-! Helper lemmas -/

theorem strData_append (a b : String) : (a ++ b).data = a.data ++ b.data := by
  cases a
  cases b
  rfl

theorem strContains_self (s : String) : strContains s s :=
  ⟨[], [], by simp⟩

theorem strContains_appendL (a : String) {s sub : String} (h : strContains s sub) :
    strContains (a ++ s) sub := by
  obtain ⟨p, q, hp⟩ := h
  exact ⟨a.data ++ p, q, by simp [strData_append, hp]⟩

theorem strContains_appendR (a : String) {s sub : String} (h : strContains s sub) :
    strContains (s ++ a) sub := by
  obtain ⟨p, q, hp⟩ := h
  refine ⟨p, q ++ a.data, ?_⟩
  simp [strData_append, hp]

theorem strContains_joinWith (sep : String) {l : List String} {a : String}
    (h : a ∈ l) : strContains (joinWith sep l) a := by
  induction l with
  | nil => cases h
  | cons x xs ih =>
      cases xs with
      | nil =>
          rw [List.mem_singleton] at h
          subst h
          exact strContains_self a
      | cons y ys =>
          rcases List.mem_cons.mp h with rfl | hmem
          · exact strContains_appendR _ (strContains_appendR _ (strContains_self a))
          · exact strContains_appendL (x ++ sep) (ih hmem)

theorem recordSet_append_of_notMem {m : List (String × JSVal)} {k : String}
    (v : JSVal) (h : ∀ p ∈ m, p.1 ≠ k) : recordSet m k v = m ++ [(k, v)] := by
  unfold recordSet
  rw [if_neg]
  simp only [List.any_eq_true, decide_eq_true_eq, not_exists, not_and]
  intro p hp
  exact h p hp

theorem foldl_recordSet (f : String → JSVal) :
    ∀ (ks : List String) (m : List (String × JSVal)), ks.Nodup →
      (∀ k ∈ ks, ∀ p ∈ m, p.1 ≠ k) →
      ks.foldl (fun m k => recordSet m k (f k)) m = m ++ ks.map (fun k => (k, f k)) := by
  intro ks
  induction ks with
  | nil => intro m _ _; simp
  | cons k ks ih =>
      intro m hnd hdisj
      have hk : ∀ p ∈ m, p.1 ≠ k := hdisj k (List.mem_cons_self k ks)
      rw [List.foldl_cons, recordSet_append_of_notMem (f k) hk,
        ih (m ++ [(k, f k)]) (List.nodup_cons.mp hnd).2]
      · simp
      · intro k' hk' p hp
        rcases List.mem_append.mp hp with h | h
        · exact hdisj k' (List.mem_cons_of_mem k hk') p h
        · rw [List.mem_singleton] at h
          subst h
          intro hcontr
          have hkk : k = k' := hcontr
          exact (List.nodup_cons.mp hnd).1 (hkk ▸ hk')

theorem lexCmpCh_nil_le (c : List Char) : lexCmpCh [] c ≤ 0 := by
  cases c <;> simp [lexCmpCh]

theorem lexCmpCh_eq_zero : ∀ {a b : List Char}, lexCmpCh a b = 0 → a = b := by
  intro a
  induction a with
  | nil => intro b h; cases b with
      | nil => rfl
      | cons y ys => simp [lexCmpCh] at h
  | cons x xs ih =>
      intro b h
      cases b with
      | nil => simp [lexCmpCh] at h
      | cons y ys =>
          simp only [lexCmpCh] at h
          rcases lt_trichotomy x y with hxy | hxy | hxy
          · rw [if_pos hxy] at h; exact absurd h (by decide)
          · subst hxy
            rw [if_neg (lt_irrefl x), if_neg (lt_irrefl x)] at h
            rw [ih h]
          · rw [if_neg (lt_asymm hxy), if_pos hxy] at h
            exact absurd h (by decide)

theorem lexCmpCh_flip : ∀ (a b : List Char), lexCmpCh b a = -(lexCmpCh a b) := by
  intro a
  induction a with
  | nil => intro b; cases b <;> simp [lexCmpCh]
  | cons x xs ih =>
      intro b
      cases b with
      | nil => simp [lexCmpCh]
      | cons y ys =>
          simp only [lexCmpCh]
          rcases lt_trichotomy x y with hxy | hxy | hxy
          · simp [hxy, lt_asymm hxy]
          · subst hxy
            simp [lt_irrefl, ih ys]
          · simp [hxy, lt_asymm hxy]

theorem lexCmpCh_le_trans : ∀ (a b c : List Char),
    lexCmpCh a b ≤ 0 → lexCmpCh b c ≤ 0 → lexCmpCh a c ≤ 0 := by
  intro a
  induction a with
  | nil => intro b c _ _; exact lexCmpCh_nil_le c
  | cons x xs ih =>
      intro b c h1 h2
      cases b with
      | nil => simp [lexCmpCh] at h1
      | cons y ys =>
          cases c with
          | nil => simp [lexCmpCh] at h2
          | cons z zs =>
              simp only [lexCmpCh] at h1 h2 ⊢
              rcases lt_trichotomy x y with hxy | hxy | hxy
              · rw [if_pos hxy] at h1
                rcases lt_trichotomy y z with hyz | hyz | hyz
                · rw [if_pos (lt_trans hxy hyz)]; decide
                · subst hyz; rw [if_pos hxy]; decide
                · rw [if_neg (lt_asymm hyz), if_pos hyz] at h2
                  exact absurd h2 (by decide)
              · subst hxy
                rcases lt_trichotomy x z with hyz | hyz | hyz
                · rw [if_pos hyz]; decide
                · subst hyz
                  rw [if_neg (lt_irrefl x), if_neg (lt_irrefl x)] at h1 h2 ⊢
                  exact ih ys zs h1 h2
                · rw [if_neg (lt_asymm hyz), if_pos hyz] at h2
                  exact absurd h2 (by decide)
              · rw [if_neg (lt_asymm hxy), if_pos hxy] at h1
                exact absurd h1 (by decide)

theorem lexCmpCh_le_total (a b : List Char) :
    lexCmpCh a b ≤ 0 ∨ lexCmpCh b a ≤ 0 := by
  rcases le_or_lt (lexCmpCh a b) 0 with h | h
  · exact Or.inl h
  · right
    rw [lexCmpCh_flip a b]
    omega

theorem jsLocaleCompare_primary_le {a b : String} (h : jsLocaleCompare a b ≤ 0) :
    lexCmpCh (jsToLower a).data (jsToLower b).data ≤ 0 := by
  unfold jsLocaleCompare at h
  by_cases hp : lexCmpCh (jsToLower a).data (jsToLower b).data = 0
  · omega
  · rw [if_pos hp] at h
    exact h

theorem jsLocaleCompare_le_trans {a b c : String}
    (h1 : jsLocaleCompare a b ≤ 0) (h2 : jsLocaleCompare b c ≤ 0) :
    jsLocaleCompare a c ≤ 0 := by
  have p1 := jsLocaleCompare_primary_le h1
  have p2 := jsLocaleCompare_primary_le h2
  have p3 := lexCmpCh_le_trans _ _ _ p1 p2
  unfold jsLocaleCompare at h1 h2 ⊢
  by_cases hp3 : lexCmpCh (jsToLower a).data (jsToLower c).data = 0
  · rw [if_neg (by simpa using hp3)]
    have haceq : (jsToLower a).data = (jsToLower c).data := lexCmpCh_eq_zero hp3
    have hp1 : lexCmpCh (jsToLower a).data (jsToLower b).data = 0 := by
      by_contra hne
      have hlt : lexCmpCh (jsToLower a).data (jsToLower b).data < 0 := by omega
      have : lexCmpCh (jsToLower b).data (jsToLower c).data > 0 := by
        rw [← haceq, lexCmpCh_flip]
        omega
      omega
    have hp2 : lexCmpCh (jsToLower b).data (jsToLower c).data = 0 := by
      by_contra hne
      have hlt : lexCmpCh (jsToLower b).data (jsToLower c).data < 0 := by omega
      have : lexCmpCh (jsToLower a).data (jsToLower b).data > 0 := by
        rw [haceq, lexCmpCh_flip]
        omega
      omega
    rw [if_neg (by simpa using hp1)] at h1
    rw [if_neg (by simpa using hp2)] at h2
    exact lexCmpCh_le_trans _ _ _ h1 h2
  · rw [if_pos (by simpa using hp3)]
    exact p3

theorem jsLocaleCompare_le_total (a b : String) :
    jsLocaleCompare a b ≤ 0 ∨ jsLocaleCompare b a ≤ 0 := by
  unfold jsLocaleCompare
  have hflip := lexCmpCh_flip (jsToLower a).data (jsToLower b).data
  have hflip2 := lexCmpCh_flip (caseKey a) (caseKey b)
  rcases lexCmpCh_le_total (jsToLower a).data (jsToLower b).data with h | h
  · by_cases hz : lexCmpCh (jsToLower a).data (jsToLower b).data = 0
    · rcases lexCmpCh_le_total (caseKey a) (caseKey b) with hc | hc
      · left; rw [if_neg (by simpa using hz)]; exact hc
      · right; rw [if_neg (by simp [hflip, hz])]; exact hc
    · left; rw [if_pos (by simpa using hz)]; exact h
  · by_cases hz : lexCmpCh (jsToLower b).data (jsToLower a).data = 0
    · rcases lexCmpCh_le_total (caseKey a) (caseKey b) with hc | hc
      · left
        rw [if_neg (by simp [show lexCmpCh (jsToLower a).data (jsToLower b).data = 0 by omega])]
        exact hc
      · right; rw [if_neg (by simpa using hz)]; exact hc
    · right; rw [if_pos (by simpa using hz)]; exact h

/-! Claim theorems -/

/-- Claim C2: The capability value coercion behaves exactly as the
specification's rules 1–8 describe: wherever the spec-side function
`coercionSpec` yields a coerced value, `validateCapabilityValue` returns
exactly that value, wherever it yields a failure the validator throws,
and the failure for an unsupported runtime type names that type. -/
theorem validateCapabilityValue_matches_coercionSpec :
    (∀ v : JSVal,
       match coercionSpec v with
       | some r => ValidationHelper.validateCapabilityValue v = .ok r
       | none => ∃ m, ValidationHelper.validateCapabilityValue v = .error m) ∧
    (∀ t : String, ValidationHelper.validateCapabilityValue (.other t) =
       .error ("Invalid capability value type: expected string, number, or boolean, got " ++ t)) := by
  constructor
  · intro v
    cases v with
    | null => exact ⟨_, rfl⟩
    | undef => exact ⟨_, rfl⟩
    | bool b => rfl
    | num n => cases n <;> first
        | rfl
        | exact ⟨_, rfl⟩
    | str s =>
        simp only [coercionSpec, ValidationHelper.validateCapabilityValue]
        split_ifs <;> first
          | rfl
          | exact ⟨_, rfl⟩
    | other t => exact ⟨_, rfl⟩
  · intro t
    rfl

/-- Claim C1 (counterexample): A `control_device` call with the raw string
value `"true"` sends exactly that raw string to the provider's
`setCapabilityValue`, although the capability value coercion maps
`"true"` to the boolean `true`; the value reaching the provider is the
raw input, not the coerced value. -/
theorem controlDevice_skips_coercion_counterexample :
    (HomeyTools.controlDevice (some demoApi) (.str "d1") (.str "onoff") (.str "true")).2
      = [ProviderOp.setCapabilityValue "d1" "onoff" (.str "true"),
         ProviderOp.getDevice "d1"] ∧
    ValidationHelper.validateCapabilityValue (.str "true") = .ok (.bool true) ∧
    JSVal.str "true" ≠ JSVal.bool true := by
  refine ⟨by decide, rfl, by decide⟩

/-- Claim C1 (amended): `control_device` validates `device_id` and
`capability` but applies no coercion to `value`: for every raw value, the
`setCapabilityValue` operation that reaches the provider carries the raw
value unchanged (`validateCapabilityValue` is never invoked on this
path). -/
theorem controlDevice_forwards_raw_value (api : HomeyAPIModel) (devId cap : String)
    (value : JSVal) (hdev : devId ≠ "") (hcap : cap ≠ "") :
    ∃ rest, (HomeyTools.controlDevice (some api) (.str devId) (.str cap) value).2
      = ProviderOp.setCapabilityValue devId cap value :: rest := by
  unfold HomeyTools.controlDevice
  simp only [ValidationHelper.validateDeviceId, ValidationHelper.validateCapability,
    if_neg hdev, if_neg hcap]
  cases h : api.setCapResult devId cap value with
  | some err => exact ⟨[], rfl⟩
  | none =>
      cases h2 : api.devices.lookup devId with
      | none => exact ⟨[ProviderOp.getDevice devId], rfl⟩
      | some d => exact ⟨[ProviderOp.getDevice devId], rfl⟩

/-- Witness for `controlDevice_forwards_raw_value` at a concrete input. -/
theorem controlDevice_forwards_raw_value_witness :
    ∃ rest, (HomeyTools.controlDevice (some demoApi) (.str "d1") (.str "onoff")
        (.str "true")).2
      = ProviderOp.setCapabilityValue "d1" "onoff" (.str "true") :: rest :=
  controlDevice_forwards_raw_value demoApi "d1" "onoff" (.str "true")
    (by decide) (by decide)

/-- Claim C3: A `tools/call` whose tool name is a string absent from the
registered tool catalog performs no provider operation at all and is
answered with a `-32603` error whose message names the tool and whose
diagnostic data is `Unknown tool: <name>`. -/
theorem unknown_tool_fails_before_provider (homeyApi : Option HomeyAPIModel)
    (req : MCPRequest) (p : ToolCallParams) (nm : String)
    (hp : req.params = some p) (hnm : p.name = .str nm)
    (hreg : nm ∉ HomeyMCPServer.getToolDefinitions.map ToolDef.name) :
    (HomeyMCPServer.handleToolCall homeyApi req).2 = [] ∧
    (HomeyMCPServer.handleToolCall homeyApi req).1 =
      .error req.id { code := -32603, message := "Tool failed: " ++ nm,
                      data := some ("Unknown tool: " ++ nm) } := by
  simp only [HomeyMCPServer.getToolDefinitions, List.map_cons, List.map_nil,
    List.mem_cons, List.not_mem_nil, or_false, not_or] at hreg
  obtain ⟨h1, h2, h3, h4, h5, h6, h7⟩ := hreg
  unfold HomeyMCPServer.handleToolCall HomeyMCPServer.executeTool
  rw [hp]
  dsimp only
  rw [hnm]
  dsimp only
  simp only [if_neg h1, if_neg h2, if_neg h3, if_neg h4, if_neg h5, if_neg h6, if_neg h7]
  exact ⟨trivial, rfl⟩

/-- Witness for `unknown_tool_fails_before_provider` at a concrete
request. -/
theorem unknown_tool_fails_before_provider_witness :
    (HomeyMCPServer.handleToolCall none
      { id := .num (.fin 1 1), method := "tools/call",
        params := some { name := .str "restart_homey", arguments := none } }).2 = [] ∧
    (HomeyMCPServer.handleToolCall none
      { id := .num (.fin 1 1), method := "tools/call",
        params := some { name := .str "restart_homey", arguments := none } }).1 =
      .error (.num (.fin 1 1)) { code := -32603, message := "Tool failed: " ++ "restart_homey",
                                 data := some ("Unknown tool: " ++ "restart_homey") } :=
  unknown_tool_fails_before_provider none _ _ "restart_homey" rfl rfl (by decide)

/-- Claim C4: Every branch of the dispatcher — `initialize`, `tools/list`,
`tools/call` (success or failure), the unknown-method branch, and the
top-level catch block — echoes the request's `id` (of whatever shape,
including absent/`undefined` and `null`) in the response it returns. -/
theorem response_id_echoes_request_id :
    (∀ (homeyApi : Option HomeyAPIModel) (req : MCPRequest),
       ((HomeyMCPServer.handleMCPRequest homeyApi req).1).respId = req.id) ∧
    (∀ (req : MCPRequest) (err : String),
       (HomeyMCPServer.topLevelCatch req err).respId = req.id) := by
  constructor
  · intro homeyApi req
    unfold HomeyMCPServer.handleMCPRequest
    split
    · rfl
    · rfl
    · cases hps : req.params <;>
        (unfold HomeyMCPServer.handleToolCall
         rw [hps]
         dsimp only
         split <;> rfl)
    · rfl
  · intro req err
    rfl

/-- Claim C5: A `trigger_flow` call on an existing flow performs no provider
mutation (its only provider operation is the `getFlow` read) and returns
a successful text that carries the flow's name, id, enabled and
triggerable flags together with the explicit not-operational notice —
for every flow, including disabled or non-triggerable ones. -/
theorem triggerFlow_no_mutation (api : HomeyAPIModel) (fid : String) (flow : Flow)
    (hfid : fid ≠ "") (hlook : api.flows.lookup fid = some flow) :
    (∀ op ∈ (HomeyTools.triggerFlow (some api) (.str fid)).2, op.isMutation = false) ∧
    ∃ t, (HomeyTools.triggerFlow (some api) (.str fid)).1 = .ok t ∧
      strContains t "Flow triggering is currently not operational" ∧
      strContains t ("- Name: " ++ jsOr flow.name fid) ∧
      strContains t ("- ID: " ++ fid) ∧
      strContains t ("- Enabled: " ++ (if flow.enabled.getD false then "Yes" else "No")) ∧
      strContains t ("- Triggerable: " ++ (if flow.triggerable.getD false then "Yes" else "No")) := by
  unfold HomeyTools.triggerFlow
  simp only [ValidationHelper.validateFlowId, if_neg hfid, hlook]
  constructor
  · intro op hop
    simp only [List.mem_singleton] at hop
    subst hop
    rfl
  · refine ⟨_, rfl, ?_, ?_, ?_, ?_, ?_⟩
    · refine strContains_appendR _ (strContains_appendR _ (strContains_appendR _
        (strContains_appendR _ (strContains_appendR _ ?_))))
      exact ⟨"⚠️ ".data,
        " due to Homey API limitations.\n\nFlow Details:\n".data, by decide⟩
    · exact strContains_appendR _ (strContains_appendR _ (strContains_appendR _
        (strContains_appendR _ (strContains_appendL _ (strContains_self _)))))
    · exact strContains_appendR _ (strContains_appendR _ (strContains_appendR _
        (strContains_appendL _ (strContains_appendL "\n" (strContains_self _)))))
    · exact strContains_appendR _ (strContains_appendR _ (strContains_appendL _
        (strContains_appendL "\n" (strContains_self _))))
    · exact strContains_appendR _ (strContains_appendL _
        (strContains_appendL "\n" (strContains_self _)))

/-- Witness for `triggerFlow_no_mutation` at the demo provider's
(disabled, non-triggerable) flow `f1`. -/
theorem triggerFlow_no_mutation_witness :
    (∀ op ∈ (HomeyTools.triggerFlow (some demoApi) (.str "f1")).2, op.isMutation = false) ∧
    ∃ t, (HomeyTools.triggerFlow (some demoApi) (.str "f1")).1 = .ok t ∧
      strContains t "Flow triggering is currently not operational" ∧
      strContains t ("- Name: " ++ jsOr demoFlow.name "f1") ∧
      strContains t ("- ID: " ++ "f1") ∧
      strContains t ("- Enabled: " ++ (if demoFlow.enabled.getD false then "Yes" else "No")) ∧
      strContains t ("- Triggerable: " ++ (if demoFlow.triggerable.getD false then "Yes" else "No")) :=
  triggerFlow_no_mutation demoApi "f1" demoFlow (by decide) rfl

/-- Claim C6: `list_zones` renders the zone collection sorted ascending by
display name under case-insensitive comparison (the comparator's primary
strength), and on the specification's example zones
`{"Kitchen","attic","Bedroom"}` the rendered order is
`attic, Bedroom, Kitchen`. -/
theorem listZones_sorted_case_insensitive :
    (∀ api : HomeyAPIModel,
       (HomeyTools.listZones (some api)).1 =
         .ok (MCPHelper.formatZoneList (HomeyTools.zoneArrayOf api)) ∧
       List.Pairwise (fun a b : ZoneEntry => ciLe a.name b.name)
         (HomeyTools.zoneArrayOf api)) ∧
    (HomeyTools.zoneArrayOf demoApi).map ZoneEntry.name = ["attic", "Bedroom", "Kitchen"] := by
  constructor
  · intro api
    refine ⟨rfl, ?_⟩
    have hs : List.Sorted (fun a b : ZoneEntry => jsLocaleCompare a.name b.name ≤ 0)
        (HomeyTools.zoneArrayOf api) := by
      unfold HomeyTools.zoneArrayOf
      haveI ht : IsTotal ZoneEntry (fun a b => jsLocaleCompare a.name b.name ≤ 0) :=
        ⟨fun a b => jsLocaleCompare_le_total a.name b.name⟩
      haveI htr : IsTrans ZoneEntry (fun a b => jsLocaleCompare a.name b.name ≤ 0) :=
        ⟨fun _ _ _ h1 h2 => jsLocaleCompare_le_trans h1 h2⟩
      exact List.sorted_insertionSort _ _
    exact List.Pairwise.imp (fun h => jsLocaleCompare_primary_le h) hs
  · decide

/-- Claim C7 (counterexample): With an explicitly supplied empty-string
zone filter the claim fails: no device's resolved zone name
case-insensitively equals `""`, yet `list_devices` returns the *full*
device list rather than the `"No devices found."` rendering, because a
falsy filter disables filtering. -/
theorem listDevices_empty_filter_counterexample :
    (HomeyTools.listDevices (some demoApi) (.str "")).1 ≠ .ok "No devices found." ∧
    (HomeyTools.listDevices (some demoApi) (.str "")).1 =
      .ok (MCPHelper.formatDeviceList
        [HomeyTools.mkDeviceInfo "d1" demoLamp "Kitchen",
         HomeyTools.mkDeviceInfo "d8" demoSensor "attic"]) ∧
    (∀ p ∈ demoApi.devices,
       jsToLower (HomeyTools.getZoneName p.2.zone demoApi.zones) ≠ jsToLower "") := by
  refine ⟨by decide, rfl, by decide⟩

/-- Claim C7 (amended): For every *non-empty* supplied zone filter string,
`list_devices` renders exactly the devices whose resolved zone name
case-insensitively equals the filter, and an empty match set renders the
literal `"No devices found."`.  (An empty-string filter is falsy and
disables filtering instead.) -/
theorem listDevices_zone_filter_exact (api : HomeyAPIModel) (z : String) (hz : z ≠ "") :
    ∃ L, (HomeyTools.listDevices (some api) (.str z)).1 =
        .ok (MCPHelper.formatDeviceList L) ∧
      (∀ d : DeviceInfo, d ∈ L ↔ ∃ p ∈ api.devices,
         jsToLower (HomeyTools.getZoneName p.2.zone api.zones) = jsToLower z ∧
         d = HomeyTools.mkDeviceInfo p.1 p.2 (HomeyTools.getZoneName p.2.zone api.zones)) ∧
      (L = [] → MCPHelper.formatDeviceList L = "No devices found.") := by
  refine ⟨_, rfl, ?_, ?_⟩
  · intro d
    rw [List.mem_filterMap]
    constructor
    · rintro ⟨p, hp, hd⟩
      by_cases hmatch : jsToLower (HomeyTools.getZoneName p.2.zone api.zones) = jsToLower z
      · rw [if_neg (by simp [hmatch])] at hd
        exact ⟨p, hp, hmatch, (Option.some_inj.mp hd).symm⟩
      · rw [if_pos ⟨hz, hmatch⟩] at hd
        cases hd
    · rintro ⟨p, hp, hmatch, rfl⟩
      refine ⟨p, hp, ?_⟩
      rw [if_neg (by simp [hmatch])]
  · intro h
    rw [h]
    rfl

/-- Witness for `listDevices_zone_filter_exact` with the filter
`"Kitchen"` on the demo provider. -/
theorem listDevices_zone_filter_exact_witness :
    ∃ L, (HomeyTools.listDevices (some demoApi) (.str "Kitchen")).1 =
        .ok (MCPHelper.formatDeviceList L) ∧
      (∀ d : DeviceInfo, d ∈ L ↔ ∃ p ∈ demoApi.devices,
         jsToLower (HomeyTools.getZoneName p.2.zone demoApi.zones) = jsToLower "Kitchen" ∧
         d = HomeyTools.mkDeviceInfo p.1 p.2 (HomeyTools.getZoneName p.2.zone demoApi.zones)) ∧
      (L = [] → MCPHelper.formatDeviceList L = "No devices found.") :=
  listDevices_zone_filter_exact demoApi "Kitchen" (by decide)

/-- Claim C9 (counterexample): The zone filter is *not* trimmed before
comparison: on the demo provider (whose lamp lives in zone `"Kitchen"`),
the filter `" kitchen "` matches nothing and renders
`"No devices found."`, while its trimmed form `"kitchen"` matches the
lamp — so the padded and the trimmed filter behave differently, which a
trimming implementation would make impossible. -/
theorem listDevices_filter_untrimmed_counterexample :
    (HomeyTools.listDevices (some demoApi) (.str " kitchen ")).1 = .ok "No devices found." ∧
    jsTrim " kitchen " = "kitchen" ∧
    (HomeyTools.listDevices (some demoApi) (.str "kitchen")).1 ≠ .ok "No devices found." := by
  refine ⟨rfl, rfl, by decide⟩

/-- Claim C9 (amended): `list_devices` treats an absent (`undefined`)
filter as a valid "no filter" state, and a supplied textual filter is
compared against zone names exactly as received — lower-cased but *not*
trimmed (`sanitizeZoneName` exists in the source but is never invoked on
this path). -/
theorem listDevices_filter_raw_and_absent (api : HomeyAPIModel) (z : String)
    (hz : z ≠ "") :
    (HomeyTools.listDevices (some api) .undef).1 =
      .ok (MCPHelper.formatDeviceList (api.devices.map fun p =>
        HomeyTools.mkDeviceInfo p.1 p.2 (HomeyTools.getZoneName p.2.zone api.zones))) ∧
    (HomeyTools.listDevices (some api) (.str z)).1 =
      .ok (MCPHelper.formatDeviceList (api.devices.filterMap fun p =>
        if jsToLower (HomeyTools.getZoneName p.2.zone api.zones) ≠ jsToLower z then none
        else some (HomeyTools.mkDeviceInfo p.1 p.2
          (HomeyTools.getZoneName p.2.zone api.zones)))) := by
  constructor
  · rfl
  · unfold HomeyTools.listDevices
    dsimp only
    congr 2
    apply List.filterMap_congr
    intro p _
    by_cases hmatch : jsToLower (HomeyTools.getZoneName p.2.zone api.zones) = jsToLower z
    · rw [if_neg (by simp [hmatch]), if_neg (by simp [hmatch])]
    · rw [if_pos ⟨hz, hmatch⟩, if_pos hmatch]

/-- Witness for `listDevices_filter_raw_and_absent` at the filter
`"attic"` on the demo provider. -/
theorem listDevices_filter_raw_and_absent_witness :
    (HomeyTools.listDevices (some demoApi) .undef).1 =
      .ok (MCPHelper.formatDeviceList (demoApi.devices.map fun p =>
        HomeyTools.mkDeviceInfo p.1 p.2 (HomeyTools.getZoneName p.2.zone demoApi.zones))) ∧
    (HomeyTools.listDevices (some demoApi) (.str "attic")).1 =
      .ok (MCPHelper.formatDeviceList (demoApi.devices.filterMap fun p =>
        if jsToLower (HomeyTools.getZoneName p.2.zone demoApi.zones) ≠ jsToLower "attic" then none
        else some (HomeyTools.mkDeviceInfo p.1 p.2
          (HomeyTools.getZoneName p.2.zone demoApi.zones)))) :=
  listDevices_filter_raw_and_absent demoApi "attic" (by decide)

/-- Claim C8: `get_device_info` on an existing device resolves every
declared capability individually: the call succeeds as a whole, the
rendering carries one `  <capability>: <value>` line per declared
capability, a capability whose read fails is rendered with the
`"Error reading value"` placeholder, and every successfully read
capability is rendered with its value. -/
theorem getDeviceInfo_degrades_per_capability (api : HomeyAPIModel) (devId : String)
    (device : Device) (hdev : devId ≠ "")
    (hlook : api.devices.lookup devId = some device)
    (hnd : device.capabilities.Nodup) :
    ∃ t, (HomeyTools.getDeviceInfo (some api) (.str devId)).1 = .ok t ∧
      t = joinWith "\n"
        (HomeyTools.deviceInfoHeader devId device (jsOrOpt device.zone "Unknown")
           (match device.available with
            | none => "Unknown"
            | some true => "Yes"
            | some false => "No") ++
         device.capabilities.map fun c =>
           "  " ++ c ++ ": " ++ jsonStringify (HomeyTools.readCapValue api devId c)) ∧
      (∀ c ∈ device.capabilities, ∀ e, api.capRead devId c = .error e →
         strContains t ("  " ++ c ++ ": " ++ jsonStringify (JSVal.str "Error reading value"))) ∧
      (∀ c ∈ device.capabilities, ∀ v, api.capRead devId c = .ok v →
         strContains t ("  " ++ c ++ ": " ++ jsonStringify v)) := by
  have hfold := foldl_recordSet (HomeyTools.readCapValue api devId) device.capabilities []
    hnd (by intro k _ p hp; cases hp)
  unfold HomeyTools.getDeviceInfo
  simp only [ValidationHelper.validateDeviceId, if_neg hdev, hlook]
  rw [hfold]
  simp only [List.nil_append, List.map_map]
  refine ⟨_, rfl, rfl, ?_, ?_⟩
  · intro c hc e herr
    have hval : HomeyTools.readCapValue api devId c = .str "Error reading value" := by
      unfold HomeyTools.readCapValue
      rw [herr]
    have hmem : ((fun p : String × JSVal => "  " ++ p.1 ++ ": " ++ jsonStringify p.2) ∘
        fun k => (k, HomeyTools.readCapValue api devId k)) c ∈
        HomeyTools.deviceInfoHeader devId device (jsOrOpt device.zone "Unknown")
           (match device.available with
            | none => "Unknown"
            | some true => "Yes"
            | some false => "No") ++
        device.capabilities.map ((fun p : String × JSVal =>
          "  " ++ p.1 ++ ": " ++ jsonStringify p.2) ∘
          fun k => (k, HomeyTools.readCapValue api devId k)) :=
      List.mem_append_right _ (List.mem_map_of_mem _ hc)
    simp only [Function.comp_apply, hval] at hmem
    exact strContains_joinWith "\n" hmem
  · intro c hc v hok
    have hval : HomeyTools.readCapValue api devId c = v := by
      unfold HomeyTools.readCapValue
      rw [hok]
    have hmem : ((fun p : String × JSVal => "  " ++ p.1 ++ ": " ++ jsonStringify p.2) ∘
        fun k => (k, HomeyTools.readCapValue api devId k)) c ∈
        HomeyTools.deviceInfoHeader devId device (jsOrOpt device.zone "Unknown")
           (match device.available with
            | none => "Unknown"
            | some true => "Yes"
            | some false => "No") ++
        device.capabilities.map ((fun p : String × JSVal =>
          "  " ++ p.1 ++ ": " ++ jsonStringify p.2) ∘
          fun k => (k, HomeyTools.readCapValue api devId k)) :=
      List.mem_append_right _ (List.mem_map_of_mem _ hc)
    simp only [Function.comp_apply, hval] at hmem
    exact strContains_joinWith "\n" hmem

/-- Witness for `getDeviceInfo_degrades_per_capability` on the demo sensor,
whose `dim` capability read fails while `onoff` and
`measure_temperature` succeed. -/
theorem getDeviceInfo_degrades_per_capability_witness :
    ∃ t, (HomeyTools.getDeviceInfo (some demoApi) (.str "d8")).1 = .ok t ∧
      t = joinWith "\n"
        (HomeyTools.deviceInfoHeader "d8" demoSensor (jsOrOpt demoSensor.zone "Unknown")
           (match demoSensor.available with
            | none => "Unknown"
            | some true => "Yes"
            | some false => "No") ++
         demoSensor.capabilities.map fun c =>
           "  " ++ c ++ ": " ++ jsonStringify (HomeyTools.readCapValue demoApi "d8" c)) ∧
      (∀ c ∈ demoSensor.capabilities, ∀ e, demoApi.capRead "d8" c = .error e →
         strContains t ("  " ++ c ++ ": " ++ jsonStringify (JSVal.str "Error reading value"))) ∧
      (∀ c ∈ demoSensor.capabilities, ∀ v, demoApi.capRead "d8" c = .ok v →
         strContains t ("  " ++ c ++ ": " ++ jsonStringify v)) :=
  getDeviceInfo_degrades_per_capability demoApi "d8" demoSensor (by decide) rfl (by decide)

/-- Claim C10: When the provider connection fails during server
initialization, the failure is swallowed: the singleton is still
published and returned (with no provider handle), a repeated
initialization returns that same instance without reconnecting, every
one of the seven tools then fails with an error carrying the
`HomeyAPI not initialized` message, and through `tools/call` this
surfaces as a `-32603` tool failure rather than a crash. -/
theorem init_connection_failure_swallowed (e : String)
    (connect2 : Except String HomeyAPIModel) :
    (HomeyMCPServer.initServer ⟨none⟩ (.error e)).1.inst
        = some (HomeyMCPServer.initServer ⟨none⟩ (.error e)).2 ∧
    (HomeyMCPServer.initServer ⟨none⟩ (.error e)).2.homeyApi = none ∧
    HomeyMCPServer.initServer (HomeyMCPServer.initServer ⟨none⟩ (.error e)).1 connect2
        = ((HomeyMCPServer.initServer ⟨none⟩ (.error e)).1,
           (HomeyMCPServer.initServer ⟨none⟩ (.error e)).2) ∧
    ((HomeyMCPServer.executeTool none (.str "list_devices") []).1
        = .error (HomeyTools.formatErrorMessage "list devices" HomeyTools.notInitializedMsg) ∧
     (HomeyMCPServer.executeTool none (.str "control_device")
        [("device_id", .str "d"), ("capability", .str "onoff"), ("value", .bool true)]).1
        = .error (HomeyTools.formatErrorMessage "control device" HomeyTools.notInitializedMsg) ∧
     (HomeyMCPServer.executeTool none (.str "get_device_info") [("device_id", .str "d")]).1
        = .error (HomeyTools.formatErrorMessage "get device info" HomeyTools.notInitializedMsg) ∧
     (HomeyMCPServer.executeTool none (.str "list_zones") []).1
        = .error (HomeyTools.formatErrorMessage "list zones" HomeyTools.notInitializedMsg) ∧
     (HomeyMCPServer.executeTool none (.str "list_flows") []).1
        = .error (HomeyTools.formatErrorMessage "list flows" HomeyTools.notInitializedMsg) ∧
     (HomeyMCPServer.executeTool none (.str "trigger_flow") [("flow_id", .str "f")]).1
        = .error (HomeyTools.formatErrorMessage "get flow information" HomeyTools.notInitializedMsg) ∧
     (HomeyMCPServer.executeTool none (.str "get_flow_info") [("flow_id", .str "f")]).1
        = .error (HomeyTools.formatErrorMessage "get flow info" HomeyTools.notInitializedMsg)) ∧
    strContains (HomeyTools.formatErrorMessage "list devices" HomeyTools.notInitializedMsg)
      "HomeyAPI not initialized" ∧
    (HomeyMCPServer.handleToolCall none
      { id := .null, method := "tools/call",
        params := some { name := .str "list_zones", arguments := none } }).1
      = .error .null
          { code := -32603, message := "Tool failed: " ++ "list_zones",
            data := some (HomeyTools.formatErrorMessage "list zones"
              HomeyTools.notInitializedMsg) } := by
  refine ⟨rfl, rfl, rfl, ⟨rfl, rfl, rfl, rfl, rfl, rfl, rfl⟩, ?_, rfl⟩
  exact ⟨"Failed to list devices: ".data, ". Call initialize() first.".data, by decide⟩

end HomeyMCP
